import Mathlib

/-!
Verification of the snpeek core parser.

Shallow embedding of the snpeek genomic raw-data parser
(`src/lib/models/GeneDataParser.ts`, with streaming-engine behaviour taken
from the bundled CSV engine in `dist/bundle.js`), together with proofs of
the specified properties.

Conventions of the embedding:
* JS strings are Lean `String`s; a possibly-`undefined` field access
  `row[i]` is `row.get? i : Option String`.
* The reference dataset (`MpsData`) is an association list with unique
  keys; the JS `snp in mpsData` membership test and `mpsData[snp]` lookup
  are both `List.lookup`.
* Fallible operations return `Except`; a JS `throw` / promise rejection is
  an `Except.error`.
-/

namespace Snpeek

/-- Modelled from the spec: the `Genotype` class (file `Genotype.ts` is not
part of the sources at hand; only its callers are).  A genotype is an
unordered pair of allele characters, represented as a two-element
multiset, so that equality is order-insensitive by construction.  An
unparseable genotype is represented as `none : Option Genotype` at use
sites. -/
abbrev Genotype : Type := Multiset Char

/-- Modelled from the spec: genotype construction from the character list
of a string — a two-character string yields the unordered pair of its two
characters; a string of any other length is invalid and yields the absent
genotype. -/
def Genotype.ofChars : List Char → Option Genotype
  | [a, b] => some {a, b}
  | _ => none

/-- Modelled from the spec: `Genotype.fromString` — construction of a
genotype from a string, absent (`none`) when the string does not consist
of exactly two characters. -/
def Genotype.fromString (s : String) : Option Genotype :=
  Genotype.ofChars s.toList

/-- One entry of the reference dataset (`MpsData`): phenotype label, raw
notable-genotype strings (source field `pathogenic`), and gene label
(`none` models a JS `null`). -/
structure MpsEntry where
  phenotype : String
  pathogenic : List String
  gene : Option String
deriving DecidableEq

/-- The reference dataset: a mapping from variant identifier (rsid) to its
entry, embedded as an association list with unique keys. -/
def MpsData : Type := List (String × MpsEntry)

/-- A decoded variant record, as constructed by the row decoders in
`GeneDataParser.ts` (`new GeneVariant({...})`). -/
structure GeneVariant where
  rsid : String
  chromosome : String
  position : String
  genotype : Option Genotype
  phenotype : String
  pathogenic : List Genotype
  gene : Option String
deriving DecidableEq

/-- JS `String.prototype.split` with a single-character separator: split
the character list on the separator and repack each piece as a string. -/
def jsSplitChar (sep : Char) (s : String) : List String :=
  (s.toList.splitOn sep).map String.mk

/-- JS `s.includes(sub)`: substring containment. -/
def strIncludes (s sub : String) : Bool :=
  decide (sub.toList <:+: s.toList)

/-- JS `s.startsWith(sub)`: the characters of `sub` lead those of `s`. -/
def jsStartsWith (s sub : String) : Bool :=
  decide (sub.toList <+: s.toList)

/-- Row decoder body of `GeneDataParser.parse23AndMeData` (source lines
130–147): skip rows with fewer than 4 fields or whose first field starts
with `#`; otherwise look the first field up in the reference dataset and,
when present, build the variant (chromosome from field 1, position from
field 2, genotype from field 3). -/
def decode23AndMeRow (mpsData : MpsData) (row : List String) : Option GeneVariant :=
  if row.length < 4 ∨ jsStartsWith (row.getD 0 "") "#" then
    none
  else
    match mpsData.lookup (row.getD 0 "") with
    | none => none
    | some entry => some
        { rsid := row.getD 0 ""
          chromosome := row.getD 1 ""
          position := row.getD 2 ""
          genotype := Genotype.fromString (row.getD 3 "")
          phenotype := entry.phenotype
          pathogenic := entry.pathogenic.filterMap Genotype.fromString
          gene := entry.gene }

/-- Embedding of `GeneDataParser.parse23AndMeData` (source lines 128–149): the
`forEach`/push loop over the chunk's rows, in input order. -/
def parse23AndMeData (data : List (List String)) (mpsData : MpsData) : List GeneVariant :=
  data.filterMap (decode23AndMeRow mpsData)

/-- The re-split step of `GeneDataParser.parseAncestryData` (source line
154): `row = row[0]?.split('\t') ?? []`. -/
def resplitAncestryRow (row : List String) : List String :=
  match row.head? with
  | some f0 => jsSplitChar '\t' f0
  | none => []

/-- The part of the `parseAncestryData` loop body after the re-split
(source lines 155–169): skip rows with fewer than 4 fields; otherwise
look field 0 up and build the variant with genotype from
`row[3] + row[4]`.  When `row[4]` is out of range it is JS `undefined`
and string `+` appends the text `"undefined"`. -/
def decodeAncestryFields (mpsData : MpsData) (row : List String) : Option GeneVariant :=
  if row.length < 4 then
    none
  else
    match mpsData.lookup (row.getD 0 "") with
    | none => none
    | some entry => some
        { rsid := row.getD 0 ""
          chromosome := row.getD 1 ""
          position := row.getD 2 ""
          genotype := Genotype.fromString ((row.getD 3 "") ++ ((row.get? 4).getD "undefined"))
          phenotype := entry.phenotype
          pathogenic := entry.pathogenic.filterMap Genotype.fromString
          gene := entry.gene }

/-- Full row decoder body of `parseAncestryData` (source lines 153–169):
re-split field 0 on tab, then decode the resulting fields. -/
def decodeAncestryRow (mpsData : MpsData) (row : List String) : Option GeneVariant :=
  decodeAncestryFields mpsData (resplitAncestryRow row)

/-- Embedding of `GeneDataParser.parseAncestryData` (source lines 151–172). -/
def parseAncestryData (data : List (List String)) (mpsData : MpsData) : List GeneVariant :=
  data.filterMap (decodeAncestryRow mpsData)

/-- Row decoder body of `GeneDataParser.parseVCFData` (source lines
176–191): skip rows with fewer than 5 fields or whose first field starts
with `#`; otherwise look field 2 up and build the variant (chromosome
from field 0, position from field 1, genotype from field 4). -/
def decodeVCFRow (mpsData : MpsData) (row : List String) : Option GeneVariant :=
  if row.length < 5 ∨ jsStartsWith (row.getD 0 "") "#" then
    none
  else
    match mpsData.lookup (row.getD 2 "") with
    | none => none
    | some entry => some
        { rsid := row.getD 2 ""
          chromosome := row.getD 0 ""
          position := row.getD 1 ""
          genotype := Genotype.fromString (row.getD 4 "")
          phenotype := entry.phenotype
          pathogenic := entry.pathogenic.filterMap Genotype.fromString
          gene := entry.gene }

/-- Embedding of `GeneDataParser.parseVCFData` (source lines 174–194). -/
def parseVCFData (data : List (List String)) (mpsData : MpsData) : List GeneVariant :=
  data.filterMap (decodeVCFRow mpsData)

/-- The three row decoders selectable by format detection. -/
inductive RowDecoder where
  | twentyThreeAndMe
  | ancestry
  | vcf
deriving DecidableEq

/-- A detected parser configuration: selected row decoder and field
delimiter, as passed to the `GeneDataParser` constructor. -/
structure ParserConfig where
  decoder : RowDecoder
  delimiter : String
deriving DecidableEq

/-- The two failure outcomes of `GeneDataParser.fromFile`: the `throw` on
a large non-vcf file (source line 29) and the `reject` on an undetected
header (source line 46). -/
inductive FromFileError where
  | largeFileNotVcf
  | undetectedFileType
deriving DecidableEq

/-- The large-file threshold of `GeneDataParser.fromFile` (source line 22):
`1024 * 1024 * 100` bytes. -/
def maxSize : Nat := 1024 * 1024 * 100

/-- Embedding of `GeneDataParser.fromFile` (source lines 21–53) as a function of the
file name, the file byte size and the file's first logical row (joined;
the small-file branch reads exactly one preview row).  Large files bypass
content inspection and must have name extension `vcf`
(`file.name.split('.').at(-1)`); small files are classified by the header
markers contained in the first row. -/
def fromFile (fileName : String) (fileSize : Nat) (firstLine : String) :
    Except FromFileError ParserConfig :=
  let fileExtension := (jsSplitChar '.' fileName).getLast?
  if fileSize > maxSize then
    if fileExtension ≠ some "vcf" then
      .error .largeFileNotVcf
    else
      .ok ⟨.vcf, "\t"⟩
  else
    if strIncludes firstLine "generated by 23andMe" then
      .ok ⟨.twentyThreeAndMe, "\t"⟩
    else if strIncludes firstLine "#AncestryDNA raw data download" then
      .ok ⟨.ancestry, ","⟩
    else
      .error .undetectedFileType

/-- Modelled from the spec: the Matcher/Aggregator (§4.4).  The matcher
operating on `Genotype`-valued variants is not among the sources at hand
(the bundled build predates the `Genotype` model), so it is modelled from
the spec's words: the notable-genotype set recorded for an identifier is
the set of genotypes constructed from the reference entry's notable
strings. -/
def notableGenotypes (mpsData : MpsData) (rsid : String) : List Genotype :=
  match mpsData.lookup rsid with
  | some entry => entry.pathogenic.filterMap Genotype.fromString
  | none => []

/-- Modelled from the spec: the Matcher/Aggregator (§4.4) — keep exactly
the variants whose observed genotype is present and is a member of the
notable-genotype set recorded for that variant's identifier, preserving
input order. -/
def matchVariants (mpsData : MpsData) (variants : List GeneVariant) : List GeneVariant :=
  variants.filter (fun v =>
    match v.genotype with
    | some g => (notableGenotypes mpsData v.rsid).contains g
    | none => false)

/-- Outcome of one `GeneDataParser.parse` promise: `resolved` when the
user `complete` callback fires (source line 86), `rejected` when the
engine's `error` callback fires on an I/O-level read failure (source
line 89). -/
inductive ParseOutcome where
  | resolved (variants : List GeneVariant)
  | rejected
deriving DecidableEq

/-- The chunk loop of `GeneDataParser.parse` (source lines 63–92) over the
stream of row chunks, with the abstract row decoder `parseRow` standing
for the selected `GeneDataRowParser` field (a JS function that may
throw, embedded as `Except`).  Per chunk: on success the decoded
variants are concatenated onto the accumulation (source line 78); on a
thrown fault the catch block calls `parser.abort()` (source line 82),
and the bundled CSV engine's `abort` halts the stream and invokes the
user `complete` callback with the results so far
(`dist/bundle.js`: `this.abort=function(){f=!0,n.abort(),
_.meta.aborted=!0,E(e.complete)&&e.complete(_),t=""}`, and the streamer
stops on `this._handle.aborted()`), so the promise resolves with the
partial accumulation.  When all chunks are consumed, `complete` resolves
with the full accumulation. -/
def parseChunksFrom
    (parseRow : List (List String) → MpsData → Except Unit (List GeneVariant))
    (mpsData : MpsData) :
    List (List (List String)) → List GeneVariant → ParseOutcome
  | [], acc => .resolved acc
  | chunk :: rest, acc =>
    match parseRow chunk mpsData with
    | .ok foundSnps => parseChunksFrom parseRow mpsData rest (acc ++ foundSnps)
    | .error _ => .resolved acc

/-- Embedding of `GeneDataParser.parse` on a fully readable chunk stream: run the chunk
loop starting from the empty accumulation. -/
def parseStream
    (parseRow : List (List String) → MpsData → Except Unit (List GeneVariant))
    (mpsData : MpsData) (chunks : List (List (List String))) : ParseOutcome :=
  parseChunksFrom parseRow mpsData chunks []

/-- The chunk byte size of `GeneDataParser.parse` (source line 56):
`1024 * 50` bytes. -/
def chunkSize : Nat := 1024 * 50

/-- Number of chunk callbacks the bundled CSV engine delivers for a file
of `fileSize` bytes read in `chunkSize`-byte slices: the reader slices
`[start, min(start + chunkSize, size))` until `start ≥ size`, i.e.
`⌈fileSize / chunkSize⌉` chunks. -/
def numChunks (fileSize : Nat) : Nat :=
  (fileSize + chunkSize - 1) / chunkSize

/-- The successive progress values delivered by `GeneDataParser.parse`
(source lines 70–73): before processing the i-th chunk the counter
`processedSize` is incremented by the nominal `chunkSize` and
`processedSize / fileSize * 100` is passed to the progress callback. -/
def progressValues (fileSize : Nat) : List ℚ :=
  (List.range (numChunks fileSize)).map
    (fun i => (((i + 1) * chunkSize : Nat) : ℚ) / (fileSize : ℚ) * 100)

/-! ## Theorems -/

/-- Construction of a genotype from a character-pair string is
order-insensitive, since both orders denote the same unordered pair. -/
theorem Genotype.ofChars_pair (x y : Char) :
    Genotype.ofChars [x, y] = some ({x, y} : Multiset Char) := rfl

/-- Claim C2: genotype equality is order-insensitive — for distinct allele
characters `x` and `y`, the genotype constructed from the string `xy`
equals the genotype constructed from the string `yx`. -/
theorem genotype_fromString_comm (x y : Char) (hxy : x ≠ y) :
    Genotype.fromString (String.mk [x, y]) = Genotype.fromString (String.mk [y, x]) := by
  show Genotype.ofChars [x, y] = Genotype.ofChars [y, x]
  rw [Genotype.ofChars_pair, Genotype.ofChars_pair, Multiset.pair_comm]

/-- Claim C2, witness: `"AG"` and `"GA"` construct equal genotypes. -/
theorem genotype_fromString_comm_witness :
    ('A' : Char) ≠ 'G' ∧
      Genotype.fromString (String.mk ['A', 'G']) = Genotype.fromString (String.mk ['G', 'A']) :=
  ⟨by decide, genotype_fromString_comm 'A' 'G' (by decide)⟩

/-- A shared concrete reference dataset used by the concrete instances
below. -/
def mpsW : MpsData := [("rs123", ⟨"phen", ["AG", "CC"], some "GENE"⟩)]

/-- Claim C9: a VCF row with fewer than 5 fields is skipped — it produces
no `GeneVariant`, and parsing of the remaining rows continues (the
decoder is a total function, so no fault is raised). -/
theorem parseVCF_skips_short_rows (mpsData : MpsData) (row : List String)
    (rest : List (List String)) (hrow : row.length < 5) :
    parseVCFData (row :: rest) mpsData = parseVCFData rest mpsData := by
  unfold parseVCFData
  rw [List.filterMap_cons]
  have hnone : decodeVCFRow mpsData row = none := by
    unfold decodeVCFRow
    rw [if_pos (Or.inl hrow)]
  rw [hnone]

/-- Claim C9, witness: a concrete 2-field row is skipped and the rest of
the batch is still decoded. -/
theorem parseVCF_skips_short_rows_witness :
    (["rs123", "1"] : List String).length < 5 ∧
      parseVCFData [["rs123", "1"], ["1", "100", "rs123", "x", "AG"]] mpsW =
        parseVCFData [["1", "100", "rs123", "x", "AG"]] mpsW :=
  ⟨by decide, parseVCF_skips_short_rows mpsW ["rs123", "1"] [["1", "100", "rs123", "x", "AG"]] (by decide)⟩

/-- Claim C5: for a file whose byte size exceeds 104857600 bytes, format
detection ignores the file's content entirely; it fails with the
unsupported-large-file error when the name's extension is not `vcf`, and
selects the VCF decoder with tab delimiter when it is. -/
theorem fromFile_largeFile (fileName : String) (fileSize : Nat) (firstLine : String)
    (hsize : 104857600 < fileSize) :
    (∀ otherLine, fromFile fileName fileSize otherLine = fromFile fileName fileSize firstLine) ∧
    ((jsSplitChar '.' fileName).getLast? ≠ some "vcf" →
      fromFile fileName fileSize firstLine = .error .largeFileNotVcf) ∧
    ((jsSplitChar '.' fileName).getLast? = some "vcf" →
      fromFile fileName fileSize firstLine = .ok ⟨.vcf, "\t"⟩) := by
  have hgt : fileSize > maxSize := by
    have : maxSize = 104857600 := by norm_num [maxSize]
    omega
  refine ⟨?_, ?_, ?_⟩
  · intro otherLine
    unfold fromFile
    rw [if_pos hgt, if_pos hgt]
  · intro hext
    unfold fromFile
    rw [if_pos hgt, if_pos hext]
  · intro hext
    unfold fromFile
    rw [if_pos hgt, if_neg (by simp [hext])]

/-- Claim C5, witness: at size 104857601, a `.txt` file is rejected as an
unsupported large file and a `.vcf` file selects the VCF decoder with tab
delimiter. -/
theorem fromFile_largeFile_witness :
    fromFile "data.txt" 104857601 "ignored" = .error .largeFileNotVcf ∧
      fromFile "data.vcf" 104857601 "ignored" = .ok ⟨.vcf, "\t"⟩ :=
  ⟨(fromFile_largeFile "data.txt" 104857601 "ignored" (by norm_num)).2.1 (by decide),
   (fromFile_largeFile "data.vcf" 104857601 "ignored" (by norm_num)).2.2 (by decide)⟩

/-- Claim C4: for a file not exceeding the large-file threshold, detection
is decided by the first logical row alone — the 23andMe marker selects the
23andMe decoder with tab delimiter; otherwise the AncestryDNA marker
selects the AncestryDNA decoder with comma delimiter; otherwise detection
fails with the undetected-file-type error. -/
theorem fromFile_detectsByHeader (fileName : String) (fileSize : Nat) (firstLine : String)
    (hsize : fileSize ≤ 104857600) :
    (strIncludes firstLine "generated by 23andMe" = true →
      fromFile fileName fileSize firstLine = .ok ⟨.twentyThreeAndMe, "\t"⟩) ∧
    (strIncludes firstLine "generated by 23andMe" = false →
      strIncludes firstLine "#AncestryDNA raw data download" = true →
      fromFile fileName fileSize firstLine = .ok ⟨.ancestry, ","⟩) ∧
    (strIncludes firstLine "generated by 23andMe" = false →
      strIncludes firstLine "#AncestryDNA raw data download" = false →
      fromFile fileName fileSize firstLine = .error .undetectedFileType) := by
  have hngt : ¬ fileSize > maxSize := by
    have : maxSize = 104857600 := by norm_num [maxSize]
    omega
  refine ⟨?_, ?_, ?_⟩
  · intro h23
    unfold fromFile
    rw [if_neg hngt, if_pos h23]
  · intro h23 hanc
    unfold fromFile
    rw [if_neg hngt, if_neg (by simp [h23]), if_pos hanc]
  · intro h23 hanc
    unfold fromFile
    rw [if_neg hngt, if_neg (by simp [h23]), if_neg (by simp [hanc])]

/-- Claim C4, witness: concrete headers drive each of the three branches
at a small file size. -/
theorem fromFile_detectsByHeader_witness :
    fromFile "f.txt" 1000 "# data generated by 23andMe at ..." = .ok ⟨.twentyThreeAndMe, "\t"⟩ ∧
      fromFile "f.txt" 1000 "#AncestryDNA raw data download" = .ok ⟨.ancestry, ","⟩ ∧
      fromFile "f.txt" 1000 "completely different" = .error .undetectedFileType :=
  ⟨(fromFile_detectsByHeader "f.txt" 1000 "# data generated by 23andMe at ..." (by norm_num)).1
      (by decide),
   (fromFile_detectsByHeader "f.txt" 1000 "#AncestryDNA raw data download" (by norm_num)).2.1
      (by decide) (by decide),
   (fromFile_detectsByHeader "f.txt" 1000 "completely different" (by norm_num)).2.2
      (by decide) (by decide)⟩

/-- The function `Genotype.ofChars` is absent for character lists whose length is not
two. -/
theorem Genotype.ofChars_eq_none (l : List Char) (h : l.length ≠ 2) :
    Genotype.ofChars l = none := by
  match l with
  | [] => rfl
  | [_] => rfl
  | [_, _] => exact absurd rfl h
  | _ :: _ :: _ :: _ => rfl

/-- Claim C8: the 23andMe decoder emits a variant for a row if and only if
the row has at least 4 fields, its first field does not start with `#`,
and its field 0 is an identifier present in the reference dataset; all
other rows are skipped, and emitted variants preserve row order with
chromosome from field 1, position from field 2 and genotype from
field 3. -/
theorem parse23AndMe_characterization (mpsData : MpsData) (data : List (List String)) :
    parse23AndMeData data mpsData = data.filterMap (fun row =>
      if 4 ≤ row.length ∧ jsStartsWith (row.getD 0 "") "#" = false then
        (mpsData.lookup (row.getD 0 "")).map (fun entry =>
          { rsid := row.getD 0 "", chromosome := row.getD 1 "", position := row.getD 2 "",
            genotype := Genotype.fromString (row.getD 3 ""), phenotype := entry.phenotype,
            pathogenic := entry.pathogenic.filterMap Genotype.fromString, gene := entry.gene })
      else none) := by
  unfold parse23AndMeData
  have hfun : ∀ row, decode23AndMeRow mpsData row =
      (if 4 ≤ row.length ∧ jsStartsWith (row.getD 0 "") "#" = false then
        (mpsData.lookup (row.getD 0 "")).map (fun entry =>
          { rsid := row.getD 0 "", chromosome := row.getD 1 "", position := row.getD 2 "",
            genotype := Genotype.fromString (row.getD 3 ""), phenotype := entry.phenotype,
            pathogenic := entry.pathogenic.filterMap Genotype.fromString, gene := entry.gene })
      else none) := by
    intro row
    unfold decode23AndMeRow
    by_cases h : row.length < 4 ∨ jsStartsWith (row.getD 0 "") "#"
    · rw [if_pos h, if_neg]
      rintro ⟨h4, hsw⟩
      rcases h with h | h
      · omega
      · rw [h] at hsw
        exact Bool.noConfusion hsw
    · push_neg at h
      obtain ⟨h4, hsw⟩ := h
      rw [if_neg (by push_neg; exact ⟨h4, hsw⟩), if_pos ⟨by omega, Bool.not_eq_true _ ▸ hsw⟩]
      cases hl : mpsData.lookup (row.getD 0 "") <;> simp
  exact congrArg (List.filterMap · data) (funext hfun)

/-- The tab-joined single field a mis-split AncestryDNA row arrives as:
the row's fields joined by tab characters. -/
def tabJoin (fs : List String) : String :=
  String.mk (List.intercalate ['\t'] (fs.map String.toList))

/-- Claim C6: the AncestryDNA decoder re-splits field 0 on tab before the
minimum-field-count check and column indices, so a row whose columns
arrive embedded as a single tab-joined field decodes exactly as the
recovered column list does, with the genotype built by concatenating
fields 3 and 4 of the re-split row. -/
theorem ancestry_resplit_recovers (mpsData : MpsData) (fs : List String)
    (hne : fs ≠ []) (hnotab : ∀ f ∈ fs, '\t' ∉ f.toList) :
    decodeAncestryRow mpsData [tabJoin fs] = decodeAncestryFields mpsData fs ∧
    ∀ v ∈ decodeAncestryRow mpsData [tabJoin fs],
      v.genotype = Genotype.fromString ((fs.getD 3 "") ++ ((fs.get? 4).getD "undefined")) := by
  have hsplit : resplitAncestryRow [tabJoin fs] = fs := by
    show jsSplitChar '\t' (tabJoin fs) = fs
    unfold jsSplitChar tabJoin
    rw [show (String.mk (List.intercalate ['\t'] (fs.map String.toList))).toList =
          List.intercalate ['\t'] (fs.map String.toList) from rfl]
    rw [List.splitOn_intercalate (fs.map String.toList) '\t' ?hx ?hls]
    case hx =>
      intro l hl
      obtain ⟨f, hf, rfl⟩ := List.mem_map.1 hl
      exact hnotab f hf
    case hls => simpa using hne
    have hid : String.mk ∘ String.toList = id := funext fun s => rfl
    rw [List.map_map, hid, List.map_id]
  have hrow : decodeAncestryRow mpsData [tabJoin fs] = decodeAncestryFields mpsData fs := by
    unfold decodeAncestryRow
    rw [hsplit]
  refine ⟨hrow, ?_⟩
  intro v hv
  rw [hrow] at hv
  unfold decodeAncestryFields at hv
  by_cases h4 : fs.length < 4
  · rw [if_pos h4] at hv
    exact absurd hv (by simp)
  · rw [if_neg h4] at hv
    cases hl : mpsData.lookup (fs.getD 0 "") with
    | none =>
      rw [hl] at hv
      exact absurd hv (by simp)
    | some entry =>
      rw [hl] at hv
      have hveq := Option.mem_some_iff.1 hv
      rw [← hveq]

/-- Claim C6, witness: a concrete 5-column AncestryDNA row arriving as one
tab-joined field decodes exactly as the split column list does. -/
theorem ancestry_resplit_recovers_witness :
    decodeAncestryRow mpsW [tabJoin ["rs123", "1", "100", "A", "G"]] =
      decodeAncestryFields mpsW ["rs123", "1", "100", "A", "G"] :=
  (ancestry_resplit_recovers mpsW ["rs123", "1", "100", "A", "G"]
    (by decide) (by decide)).1

/-- Claim C10: a re-split AncestryDNA row with exactly 4 fields whose
identifier is in the reference dataset still emits a variant — the
out-of-range field-4 access yields JS `undefined`, the genotype string
becomes field 3 followed by the text `undefined`, which is never two
characters long, so the emitted genotype is absent. -/
theorem ancestry_fourFields_absent_genotype (mpsData : MpsData) (fs : List String)
    (entry : MpsEntry) (hlen : fs.length = 4)
    (hlook : mpsData.lookup (fs.getD 0 "") = some entry) :
    decodeAncestryFields mpsData fs = some
      { rsid := fs.getD 0 "", chromosome := fs.getD 1 "", position := fs.getD 2 "",
        genotype := none, phenotype := entry.phenotype,
        pathogenic := entry.pathogenic.filterMap Genotype.fromString, gene := entry.gene } := by
  unfold decodeAncestryFields
  rw [if_neg (by omega), hlook]
  have hget : fs.get? 4 = none := List.get?_eq_none.2 (by omega)
  rw [hget]
  have habs : Genotype.fromString ((fs.getD 3 "") ++ (none : Option String).getD "undefined")
      = none := by
    unfold Genotype.fromString
    apply Genotype.ofChars_eq_none
    show ((fs.getD 3 "") ++ ("undefined" : String)).data.length ≠ 2
    rw [String.data_append]
    have h9 : ("undefined" : String).data.length = 9 := by decide
    rw [List.length_append, h9]
    omega
  rw [habs]

/-- Claim C10, witness: a concrete 4-field re-split row with a reference
identifier emits a variant whose genotype is absent. -/
theorem ancestry_fourFields_absent_genotype_witness :
    decodeAncestryFields mpsW ["rs123", "1", "100", "A"] = some
      { rsid := "rs123", chromosome := "1", position := "100", genotype := none,
        phenotype := "phen",
        pathogenic := (["AG", "CC"] : List String).filterMap Genotype.fromString,
        gene := some "GENE" } :=
  ancestry_fourFields_absent_genotype mpsW ["rs123", "1", "100", "A"]
    ⟨"phen", ["AG", "CC"], some "GENE"⟩ (by decide) (by decide)

/-- Claim C7: the matcher returns exactly the variants whose observed
genotype is present and belongs to the notable-genotype set for the
variant's identifier; the output is a subsequence of the input
(order-preserving), and a variant with an absent genotype is never
included. -/
theorem matchVariants_spec (mpsData : MpsData) (variants : List GeneVariant) :
    (matchVariants mpsData variants).Sublist variants ∧
    (∀ v, v ∈ matchVariants mpsData variants ↔
      v ∈ variants ∧ ∃ g, v.genotype = some g ∧ g ∈ notableGenotypes mpsData v.rsid) ∧
    (∀ v ∈ matchVariants mpsData variants, v.genotype ≠ none) := by
  have hiff : ∀ v, v ∈ matchVariants mpsData variants ↔
      v ∈ variants ∧ ∃ g, v.genotype = some g ∧ g ∈ notableGenotypes mpsData v.rsid := by
    intro v
    unfold matchVariants
    rw [List.mem_filter]
    constructor
    · rintro ⟨hv, hp⟩
      refine ⟨hv, ?_⟩
      cases hg : v.genotype with
      | none =>
        rw [hg] at hp
        exact Bool.noConfusion hp
      | some g =>
        rw [hg] at hp
        exact ⟨g, rfl, List.elem_iff.1 hp⟩
    · rintro ⟨hv, g, hg, hmem⟩
      refine ⟨hv, ?_⟩
      rw [hg]
      exact List.elem_iff.2 hmem
  refine ⟨List.filter_sublist _, hiff, ?_⟩
  intro v hv hnone
  obtain ⟨-, g, hg, -⟩ := (hiff v).1 hv
  rw [hnone] at hg
  exact Option.noConfusion hg

/-- Claim C7, witness: the matcher output on a concrete singleton input is
a subsequence of the input. -/
theorem matchVariants_spec_witness :
    (matchVariants mpsW [⟨"rs123", "1", "100", none, "phen", [], some "GENE"⟩]).Sublist
      [⟨"rs123", "1", "100", none, "phen", [], some "GENE"⟩] :=
  (matchVariants_spec mpsW [⟨"rs123", "1", "100", none, "phen", [], some "GENE"⟩]).1

/-- Chunk-loop invariant behind the decode-fault behaviour: with any
starting accumulation, a stream whose prefix decodes successfully and
which then faults resolves with the accumulation extended by the prefix's
variants only — the faulting chunk and everything after it contribute
nothing. -/
theorem parseChunksFrom_append_fault
    (parseRow : List (List String) → MpsData → Except Unit (List GeneVariant))
    (mpsData : MpsData) (pre post : List (List (List String))) (chunk : List (List String))
    (acc : List GeneVariant)
    (hpre : ∀ c ∈ pre, ∃ vs, parseRow c mpsData = .ok vs)
    (hfault : parseRow chunk mpsData = .error ()) :
    parseChunksFrom parseRow mpsData (pre ++ chunk :: post) acc =
      .resolved (acc ++ pre.flatMap (fun c => ((parseRow c mpsData).toOption.getD []))) := by
  induction pre generalizing acc with
  | nil =>
    simp only [List.nil_append, parseChunksFrom, hfault, List.flatMap_nil, List.append_nil]
  | cons c cs ih =>
    obtain ⟨vs, hvs⟩ := hpre c (List.mem_cons_self c cs)
    have hcs : ∀ c' ∈ cs, ∃ vs', parseRow c' mpsData = .ok vs' := by
      intro c' hc'
      exact hpre c' (List.mem_cons_of_mem c hc')
    simp only [List.cons_append, parseChunksFrom, hvs, List.append_eq]
    rw [ih (acc ++ vs) hcs]
    simp [hvs, List.flatMap_cons, Except.toOption, List.append_assoc]

/-- Claim C1 (amended): when the selected row decoder faults on a chunk,
no later chunk affects the outcome and the faulting chunk's rows are
discarded, but the operation still resolves successfully — with the
variants accumulated from the chunks decoded before the fault — because
the engine's `abort` invokes the user `complete` callback. -/
theorem parse_decodeFault_partial_resolution
    (parseRow : List (List String) → MpsData → Except Unit (List GeneVariant))
    (mpsData : MpsData) (pre post : List (List (List String))) (chunk : List (List String))
    (hpre : ∀ c ∈ pre, ∃ vs, parseRow c mpsData = .ok vs)
    (hfault : parseRow chunk mpsData = .error ()) :
    parseStream parseRow mpsData (pre ++ chunk :: post) =
      .resolved (pre.flatMap (fun c => ((parseRow c mpsData).toOption.getD []))) ∧
    parseStream parseRow mpsData (pre ++ chunk :: post) =
      parseStream parseRow mpsData (pre ++ [chunk]) := by
  constructor
  · unfold parseStream
    rw [parseChunksFrom_append_fault parseRow mpsData pre post chunk [] hpre hfault]
    rw [List.nil_append]
  · unfold parseStream
    rw [parseChunksFrom_append_fault parseRow mpsData pre post chunk [] hpre hfault,
      parseChunksFrom_append_fault parseRow mpsData pre [] chunk [] hpre hfault]

/-- A concrete variant as decoded from the 23andMe row
`rs123 1 100 AG` against `mpsW`. -/
def vW1 : GeneVariant :=
  { rsid := "rs123", chromosome := "1", position := "100",
    genotype := Genotype.fromString "AG", phenotype := "phen",
    pathogenic := (["AG", "CC"] : List String).filterMap Genotype.fromString,
    gene := some "GENE" }

/-- A concrete variant as decoded from the 23andMe row
`rs123 2 200 GA` against `mpsW`. -/
def vW2 : GeneVariant :=
  { vW1 with chromosome := "2", position := "200", genotype := Genotype.fromString "GA" }

/-- A concrete row decoder of the streaming parser's `GeneDataRowParser`
type: it throws on the marker chunk `[["BOOM"]]` and otherwise decodes
23andMe rows. -/
def faultingDecoder : List (List String) → MpsData → Except Unit (List GeneVariant) :=
  fun chunk mpsData =>
    if chunk = [["BOOM"]] then .error () else .ok (parse23AndMeData chunk mpsData)

/-- Five chunks whose third faults under `faultingDecoder`: chunks 1–2
decode successfully to `vW1` and `vW2`. -/
def chunksW : List (List (List String)) :=
  [[["rs123", "1", "100", "AG"]], [["rs123", "2", "200", "GA"]], [["BOOM"]],
    [["rs123", "3", "300", "CC"]], [["rs123", "4", "400", "AG"]]]

/-- Claim C1, counterexample: with a decoder fault on chunk 3 of 5, the
operation does not resolve with a failure outcome and no variants — it
resolves successfully with the two variants decoded from chunks 1–2. -/
theorem parse_decodeFault_counterexample :
    faultingDecoder [["BOOM"]] mpsW = .error () ∧
    parseStream faultingDecoder mpsW chunksW = .resolved [vW1, vW2] ∧
    ParseOutcome.resolved [vW1, vW2] ≠ ParseOutcome.rejected ∧
    ([vW1, vW2] : List GeneVariant) ≠ [] :=
  ⟨rfl, rfl, by intro h; exact ParseOutcome.noConfusion h,
    by intro h; exact List.noConfusion h⟩

/-- Claim C1, witness for the amended theorem: the concrete five-chunk
stream with a fault on chunk 3 resolves with exactly the variants of the
first two chunks. -/
theorem parse_decodeFault_partial_resolution_witness :
    parseStream faultingDecoder mpsW
        ([[["rs123", "1", "100", "AG"]], [["rs123", "2", "200", "GA"]]] ++ [["BOOM"]] ::
          [[["rs123", "3", "300", "CC"]], [["rs123", "4", "400", "AG"]]]) =
      .resolved ([[["rs123", "1", "100", "AG"]], [["rs123", "2", "200", "GA"]]].flatMap
        (fun c => ((faultingDecoder c mpsW).toOption.getD []))) :=
  (parse_decodeFault_partial_resolution faultingDecoder mpsW
    [[["rs123", "1", "100", "AG"]], [["rs123", "2", "200", "GA"]]]
    [[["rs123", "3", "300", "CC"]], [["rs123", "4", "400", "AG"]]]
    [["BOOM"]]
    (by
      intro c hc
      fin_cases hc <;> exact ⟨_, rfl⟩)
    rfl).1

/-- Claim C3, counterexample: for a 100-byte file the single delivered
progress value is `51200/100 × 100 = 51200`, which is not in `[0, 100]`. -/
theorem progress_exceeds_100_counterexample :
    progressValues 100 = [51200] ∧ ¬ ((51200 : ℚ) ≤ 100) := by
  refine ⟨?_, by norm_num⟩
  have h1 : numChunks 100 = 1 := by norm_num [numChunks, chunkSize]
  unfold progressValues
  rw [h1]
  norm_num [List.range_succ, chunkSize]

/-- Claim C3 (amended): each delivered progress value is
`(i × chunkSize / fileSize) × 100` for the i-th chunk; every value is
positive, every value before the final chunk is below 100, and the final
chunk's value is at least 100 — strictly above 100 (outside `[0, 100]`)
whenever the file size is not a multiple of the chunk size. -/
theorem progress_values_characterization (fileSize : Nat) (hpos : 0 < fileSize) :
    (∀ i, i < numChunks fileSize →
      (progressValues fileSize).get? i =
        some ((((i + 1) * chunkSize : Nat) : ℚ) / (fileSize : ℚ) * 100)) ∧
    (∀ p ∈ progressValues fileSize, 0 < p) ∧
    (∀ i p, i + 1 < numChunks fileSize → (progressValues fileSize).get? i = some p →
      p < 100) ∧
    (∀ i p, i + 1 = numChunks fileSize → (progressValues fileSize).get? i = some p →
      100 ≤ p ∧ (¬ chunkSize ∣ fileSize → 100 < p)) := by
  have hn0 : (0 : ℚ) < (fileSize : ℚ) := by exact_mod_cast hpos
  have hval : ∀ i, i < numChunks fileSize →
      (progressValues fileSize).get? i =
        some ((((i + 1) * chunkSize : Nat) : ℚ) / (fileSize : ℚ) * 100) := by
    intro i hi
    unfold progressValues
    rw [List.get?_map, List.get?_range hi]
    rfl
  refine ⟨hval, ?_, ?_, ?_⟩
  · intro p hp
    obtain ⟨i, hi, rfl⟩ := List.mem_map.1 hp
    have hipos : (0 : ℚ) < (((i + 1) * chunkSize : Nat) : ℚ) := by
      have : 0 < (i + 1) * chunkSize := by
        unfold chunkSize
        omega
      exact_mod_cast this
    positivity
  · intro i p hi hp
    have hlt : (i + 1) * chunkSize < fileSize := by
      unfold numChunks at hi
      unfold chunkSize at hi ⊢
      omega
    rw [hval i (by omega)] at hp
    obtain rfl := Option.some_injective _ hp.symm
    have hc : (((i + 1) * chunkSize : Nat) : ℚ) < (fileSize : ℚ) := by exact_mod_cast hlt
    have h1 : (((i + 1) * chunkSize : Nat) : ℚ) / (fileSize : ℚ) < 1 := (div_lt_one hn0).2 hc
    calc (((i + 1) * chunkSize : Nat) : ℚ) / (fileSize : ℚ) * 100
        < 1 * 100 := by
          exact mul_lt_mul_of_pos_right h1 (by norm_num)
      _ = 100 := by norm_num
  · intro i p hi hp
    have hle : fileSize ≤ (i + 1) * chunkSize := by
      unfold numChunks at hi
      unfold chunkSize at hi ⊢
      omega
    rw [hval i (by omega)] at hp
    obtain rfl := Option.some_injective _ hp.symm
    constructor
    · have hc : (fileSize : ℚ) ≤ (((i + 1) * chunkSize : Nat) : ℚ) := by exact_mod_cast hle
      have h1 : 1 ≤ (((i + 1) * chunkSize : Nat) : ℚ) / (fileSize : ℚ) :=
        (one_le_div hn0).2 hc
      calc (100 : ℚ) = 1 * 100 := by norm_num
        _ ≤ (((i + 1) * chunkSize : Nat) : ℚ) / (fileSize : ℚ) * 100 := by
            exact mul_le_mul_of_nonneg_right h1 (by norm_num)
    · intro hndvd
      have hslt : fileSize < (i + 1) * chunkSize := by
        unfold numChunks at hi
        unfold chunkSize at hi hndvd ⊢
        omega
      have hc : (fileSize : ℚ) < (((i + 1) * chunkSize : Nat) : ℚ) := by exact_mod_cast hslt
      have h1 : 1 < (((i + 1) * chunkSize : Nat) : ℚ) / (fileSize : ℚ) :=
        (one_lt_div hn0).2 hc
      calc (100 : ℚ) = 1 * 100 := by norm_num
        _ < (((i + 1) * chunkSize : Nat) : ℚ) / (fileSize : ℚ) * 100 := by
            exact mul_lt_mul_of_pos_right h1 (by norm_num)

/-- Claim C3, witness for the amended theorem: for a 100-byte file the
(final) first chunk's delivered value is 51200, which is at least 100. -/
theorem progress_values_characterization_witness :
    (0 : Nat) < 100 ∧ (100 : ℚ) ≤ (((0 + 1) * chunkSize : Nat) : ℚ) / ((100 : Nat) : ℚ) * 100 :=
  ⟨by norm_num,
    ((progress_values_characterization 100 (by norm_num)).2.2.2 0
      ((((0 + 1) * chunkSize : Nat) : ℚ) / ((100 : Nat) : ℚ) * 100)
      (by norm_num [numChunks, chunkSize])
      ((progress_values_characterization 100 (by norm_num)).1 0
        (by norm_num [numChunks, chunkSize]))).1⟩

end Snpeek
